import Mathlib

/-!
Shallow embedding, in Lean 4, of the core of the `instagram-hub` repository:
the session manager (`instagram_manager.py`), the activity monitor
(`instagram_monitor.py`) and the event sink (`webhook_manager.py`).

Effectful Python is modelled by explicit state passing: the database is a
list of rows, the in-memory client registry is an association list, and the
behaviour of external collaborators (the remote Instagram client, the
webhook transport, the database connection) is supplied through explicit
outcome parameters, so every function below is a pure, executable Lean
function whose branches mirror the branches of the Python source.
-/

namespace InstagramHub

/-- Row of the `instagram_sessions` table (`database.py`, class
`InstagramSession`): primary key `username`, opaque serialized
`session_data`, and the `is_active` flag.  The `created_at` and
`updated_at` timestamps play no role in any claim and are omitted. -/
structure SessionRec where
  username : String
  session_data : String
  is_active : Bool
deriving Repr, DecidableEq

/-- In-memory client handle (`instagrapi.Client`).  The only observable
state the embedding needs is the settings blob installed by
`client.set_settings` or produced by `client.get_settings`. -/
structure IGClient where
  settings : String
deriving Repr, DecidableEq

/-- The Client Registry `InstagramManager.clients`, a Python dict from
username to client handle, modelled as an association list with dict
update semantics. -/
def Registry := List (String × IGClient)

/-- `InstagramManager.add_client`: dict assignment `clients[username] = client`
(overwrites any previous entry for the key). -/
def addClient (username : String) (c : IGClient) (reg : List (String × IGClient)) :
    List (String × IGClient) :=
  (username, c) :: reg.filter (fun p => p.1 != username)

/-- `InstagramManager.get_client`: `clients.get(username)`. -/
def getClient (username : String) (reg : List (String × IGClient)) : Option IGClient :=
  (reg.find? (fun p => p.1 == username)).map (fun p => p.2)

/-- `InstagramManager.remove_client`: `del clients[username]` when present. -/
def removeClient (username : String) (reg : List (String × IGClient)) :
    List (String × IGClient) :=
  reg.filter (fun p => p.1 != username)

/-- `InstagramManager.get_all_usernames`: `list(clients.keys())`. -/
def getAllUsernames (reg : List (String × IGClient)) : List String :=
  reg.map (fun p => p.1)

/-- Row of the `webhook_events` table.  The ORM class `WebhookEvent` is
referenced by `webhook_manager.py` and `main.py`; its column set is read
off those uses (`id`, `username`, `event_type`, `event_data`, `processed`,
`webhook_sent`, `webhook_response`, `created_at`). -/
structure EventRecord where
  id : String
  username : String
  event_type : String
  event_data : String
  processed : Bool
  webhook_sent : Bool
  webhook_response : Option String
  created_at : Nat
deriving Repr, DecidableEq

/-- Outcome of one HTTP POST attempt by the webhook transport, as
distinguished by `WebhookManager.send_webhook`: a response with some
status code, a timeout, or a connection-level error. -/
inductive TransportOutcome
  | status (code : Nat)
  | timeout
  | connError (msg : String)
deriving Repr, DecidableEq

/-- `WebhookManager.send_webhook`: returns `False` when no webhook URL is
configured; otherwise posts and returns `True` exactly when the response
status is 200, `False` on any other status, on timeout, and on any other
transport exception. -/
def sendWebhook (webhookUrl : Option String) (o : TransportOutcome) : Bool :=
  match webhookUrl with
  | none => false
  | some _ =>
    match o with
    | .status code => code == 200
    | .timeout => false
    | .connError _ => false

/-- Result of `WebhookManager.log_event`: the returned event id and the
resulting durable table state. -/
structure LogEventResult where
  event_id : String
  db : List EventRecord
deriving Repr, DecidableEq

/-- `WebhookManager.log_event`.  `genId` is the freshly generated
`uuid.uuid4()` string and `now` the row creation time.  `dbWriteOk` models
whether the initial `db.add`/`db.commit` write succeeds (when it raises,
the `except` clause still returns the generated id and no row exists);
`dbUpdateOk` models the second `db.commit` that stores the delivery flag
(when it raises, the row from the first commit survives with
`webhook_sent = False`). -/
def logEvent (webhookUrl : Option String) (dbWriteOk dbUpdateOk : Bool)
    (genId : String) (now : Nat) (username event_type event_data : String)
    (o : TransportOutcome) (db : List EventRecord) : LogEventResult :=
  if dbWriteOk then
    let row : EventRecord :=
      { id := genId, username := username, event_type := event_type,
        event_data := event_data, processed := false, webhook_sent := false,
        webhook_response := none, created_at := now }
    let sent := sendWebhook webhookUrl o
    if dbUpdateOk then
      let resp := if sent then "Success" else "Failed"
      let row2 := { row with webhook_sent := sent, webhook_response := some resp }
      { event_id := genId, db := db ++ [row2] }
    else
      { event_id := genId, db := db ++ [row] }
  else
    { event_id := genId, db := db }

/-- `get_webhook_events` (`main.py`): optional filter on `processed`,
order by `created_at` descending, take `limit`; `total_count` is the size
of the filtered query. -/
def listEvents (db : List EventRecord) (limit : Nat) (processedFilter : Option Bool) :
    List EventRecord × Nat :=
  let q := match processedFilter with
    | none => db
    | some p => db.filter (fun e => e.processed == p)
  let sorted := q.mergeSort (fun a b => Nat.ble b.created_at a.created_at)
  (sorted.take limit, q.length)

/-- Outcome of one `client.account_info()` probe: a profile object, a
falsy result (`None`), or a raised exception. -/
inductive ProbeResult
  | ok (info : String)
  | nullInfo
  | raises (msg : String)
deriving Repr, DecidableEq

/-- Is the probe outcome a truthy profile (the `if user_info:` test after a
non-raising `account_info()` call)? -/
def probeOk : ProbeResult → Bool
  | .ok _ => true
  | _ => false

/-- Outcome of one remote `client.login(username, password)` call, as
distinguished by the handlers in `InstagramManager.login`: success,
`BadPassword`, `ChallengeRequired`, `ClientError`, or any other
exception. -/
inductive RemoteLogin
  | ok
  | badPassword
  | challengeRequired
  | clientError (msg : String)
  | otherError (msg : String)
deriving Repr, DecidableEq

/-- External-collaborator behaviour for one `InstagramManager.login` call.
Each field fixes the outcome of one effectful step of the source, in
source order. -/
structure LoginEnv where
  /-- does `_get_db_session()` succeed (else the outer `except` answers
  with an internal-server-error result)? -/
  connOk : Bool
  /-- does the initial `db.query(...).first()` succeed (on failure the code
  logs and proceeds with `existing_session = None`)? -/
  queryOk : Bool
  /-- outcome of `client.account_info()` on the restored client. -/
  probe : ProbeResult
  /-- does the `db.commit()` that marks an invalid stored session inactive
  succeed (failure is swallowed and fresh login proceeds)? -/
  markInactiveOk : Bool
  /-- outcome of the remote `client.login(username, password)` call. -/
  remote : RemoteLogin
  /-- outcome of `client.account_info()` right after a fresh login. -/
  freshProbe : ProbeResult
  /-- the settings blob `json.dumps(client.get_settings())` after login. -/
  newBlob : String
  /-- does the `db.commit()` that saves the session row succeed (failure is
  logged and swallowed, the login still succeeds)? -/
  saveOk : Bool
deriving Repr, DecidableEq

/-- Result of `InstagramManager.login` and of its fresh-login tail:
the `(success, message)` pair, the new Client Registry, the new
`instagram_sessions` table, and whether the remote login endpoint
(`client.login`) was invoked during the call. -/
structure LoginResult where
  success : Bool
  message : String
  clients : List (String × IGClient)
  db : List SessionRec
  loginCalled : Bool
deriving Repr, DecidableEq

/-- Update the (unique, `username` is the primary key) session row of a
user to `is_active := false`, as done by the invalid-session branch of
`login`, by `logout`, and by `load_existing_sessions`. -/
def markInactive (username : String) (db : List SessionRec) : List SessionRec :=
  db.map (fun s => if s.username == username then { s with is_active := false } else s)

/-- Fresh-login tail of `InstagramManager.login` (the block starting at
`client = Client()` after the existing-session branch): calls the remote
login endpoint, probes account info, saves or updates the session row
(best effort), registers the client, and maps each remote failure class to
its distinct message. -/
def freshLogin (env : LoginEnv) (username : String) (existing : Option SessionRec)
    (clients : List (String × IGClient)) (db : List SessionRec) : LoginResult :=
  match env.remote with
  | .ok =>
    match env.freshProbe with
    | .raises m =>
      { success := false, message := "Login failed: " ++ m,
        clients := clients, db := db, loginCalled := true }
    | _ =>
      let db2 :=
        if env.saveOk then
          match existing with
          | some _ =>
            db.map (fun s =>
              if s.username == username then
                { s with session_data := env.newBlob, is_active := true }
              else s)
          | none => db ++ [{ username := username, session_data := env.newBlob, is_active := true }]
        else db
      { success := true, message := "Login successful",
        clients := addClient username { settings := env.newBlob } clients,
        db := db2, loginCalled := true }
  | .badPassword =>
    { success := false, message := "Invalid username or password",
      clients := clients, db := db, loginCalled := true }
  | .challengeRequired =>
    { success := false,
      message := "Challenge required - please try logging in through Instagram app first",
      clients := clients, db := db, loginCalled := true }
  | .clientError m =>
    { success := false, message := "Instagram API error: " ++ m,
      clients := clients, db := db, loginCalled := true }
  | .otherError m =>
    { success := false, message := "Login failed: " ++ m,
      clients := clients, db := db, loginCalled := true }

/-- `InstagramManager.login`.  First looks for an `is_active` stored
session; when one exists and the restored client passes the account-info
probe, registers the restored handle and answers `"Using existing
session"` without touching the login endpoint.  A raising probe marks the
stored row inactive (best effort) and falls through to the fresh-login
tail; a falsy probe result falls through without marking. -/
def login (env : LoginEnv) (username _password : String)
    (clients : List (String × IGClient)) (db : List SessionRec) : LoginResult :=
  if env.connOk then
    let existing :=
      if env.queryOk then db.find? (fun s => s.username == username && s.is_active)
      else none
    match existing with
    | some s =>
      match env.probe with
      | .ok _ =>
        { success := true, message := "Using existing session",
          clients := addClient username { settings := s.session_data } clients,
          db := db, loginCalled := false }
      | .nullInfo => freshLogin env username (some s) clients db
      | .raises _ =>
        let db2 := if env.markInactiveOk then markInactive username db else db
        freshLogin env username (some s) clients db2
    | none => freshLogin env username none clients db
  else
    { success := false, message := "Internal server error: database unavailable",
      clients := clients, db := db, loginCalled := false }

/-- External-collaborator behaviour for one `InstagramManager.logout`
call: whether the remote `client.logout()` raises (swallowed) and whether
the database update succeeds (failure swallowed). -/
structure LogoutEnv where
  remoteLogoutRaises : Bool
  dbOk : Bool
deriving Repr, DecidableEq

/-- Result of `InstagramManager.logout`. -/
structure LogoutResult where
  success : Bool
  message : String
  clients : List (String × IGClient)
  db : List SessionRec
deriving Repr, DecidableEq

/-- `InstagramManager.logout`: best-effort remote logout (its exception is
caught and only logged), unconditional removal from the Client Registry,
best-effort `is_active := false` on the stored row (a database failure is
caught, logged, and ignored); always reports success. -/
def logout (env : LogoutEnv) (username : String)
    (clients : List (String × IGClient)) (db : List SessionRec) : LogoutResult :=
  let clients2 := removeClient username clients
  let db2 := if env.dbOk then markInactive username db else db
  { success := true, message := "Logged out " ++ username, clients := clients2, db := db2 }

/-- `InstagramManager.load_existing_sessions`: queries all
`is_active = True` rows; for each, restores a client from the stored blob
and probes it with `account_info()`.  A truthy probe registers the client
and counts it; a falsy or raising probe marks that row inactive and
processing continues with the next row.  Returns the count of restored
accounts together with the new registry and table.  `probe` gives the
probe outcome per username. -/
def loadExistingSessions (probe : String → ProbeResult)
    (clients : List (String × IGClient)) (db : List SessionRec) :
    Nat × List (String × IGClient) × List SessionRec :=
  let actives := db.filter (fun s => s.is_active)
  let restored := actives.filter (fun s => probeOk (probe s.username))
  let count := restored.length
  let clients2 := restored.foldl
    (fun cs s => addClient s.username { settings := s.session_data } cs) clients
  let db2 := db.map (fun s =>
    if s.is_active && !probeOk (probe s.username) then { s with is_active := false } else s)
  (count, clients2, db2)

/-- `InstagramManager.get_session_stats`: active count and usernames. -/
def getSessionStats (clients : List (String × IGClient)) : Nat × List String :=
  (clients.length, getAllUsernames clients)

/-- One fetched direct message (`instagrapi` message object), with the
fields `_check_messages` reads: author id, timestamp (naive UTC, modelled
as an integer), message id, text, and sender username. -/
structure IGMessage where
  user_id : Nat
  timestamp : Int
  id : String
  text : String
  sender : String
deriving Repr, DecidableEq

/-- One fetched direct thread: its id and its fetched message list, in the
order `client.direct_messages` returned them. -/
structure IGThread where
  tid : String
  messages : List IGMessage
deriving Repr, DecidableEq

/-- Event forwarded to the event sink for one new message (the essential
fields of the `message_data` dict that `_check_messages` passes to
`webhook_manager.handle_new_message`). -/
structure MessageEvent where
  sender : String
  message_id : String
  thread_id : String
  timestamp : Int
deriving Repr, DecidableEq

/-- Build the forwarded event from a thread id and a message. -/
def msgEvent (tid : String) (m : IGMessage) : MessageEvent :=
  { sender := m.sender, message_id := m.id, thread_id := tid, timestamp := m.timestamp }

/-- Per-message body of `_check_messages`: skip messages authored by the
monitored account itself (`message.user_id == client.user_id`), then
forward exactly when `message_time > last_check` (strict comparison). -/
def scanMessage (selfId : Nat) (lastCheck : Int) (tid : String) (m : IGMessage) :
    Option MessageEvent :=
  if m.user_id == selfId then none
  else if lastCheck < m.timestamp then some (msgEvent tid m)
  else none

/-- Per-thread body of `_check_messages`: of the fetched messages only the
two most recent (`messages[:2]`) are examined. -/
def checkThread (selfId : Nat) (lastCheck : Int) (t : IGThread) : List MessageEvent :=
  (t.messages.take 2).filterMap (scanMessage selfId lastCheck t.tid)

/-- `InstagramMonitor._check_messages`: of the fetched threads only the
top two (`threads[:2]`) are examined; the events forwarded to the sink are
collected in examination order. -/
def checkMessages (selfId : Nat) (lastCheck : Int) (threads : List IGThread) :
    List MessageEvent :=
  (threads.take 2).flatMap (checkThread selfId lastCheck)

/-- The (thread id, message) pairs `_check_messages` actually examines:
the first two messages of each of the first two fetched threads. -/
def examinedPairs (threads : List IGThread) : List (String × IGMessage) :=
  (threads.take 2).flatMap (fun t => (t.messages.take 2).map (fun m => (t.tid, m)))

/-- Per-account monitor bookkeeping of `InstagramMonitor`: the global
`monitoring` flag, the keys of `monitoring_tasks`, the
`last_check_timestamps` map, and the set of task handles that have been
cancelled (`task.cancel()`). -/
structure MonitorState where
  monitoring : Bool
  monitoringTasks : List String
  lastChecks : List (String × Nat)
  cancelled : List String
deriving Repr, DecidableEq

/-- Dict update `last_check_timestamps[username] = now`. -/
def setLastCheck (username : String) (t : Nat) (l : List (String × Nat)) :
    List (String × Nat) :=
  (username, t) :: l.filter (fun p => p.1 != username)

/-- Loop guard of `_monitor_user`:
`while self.monitoring and username in self.instagram_manager.get_all_usernames()`. -/
def monitorLoopGuard (monitoring : Bool) (clients : List (String × IGClient))
    (username : String) : Bool :=
  monitoring && (getAllUsernames clients).contains username

/-- Outcome of one loop body execution: a completed cycle (which stamps
`last_check_timestamps[username]` with the current time) or an exception
escaping the cycle (caught by the `except` clause, which only logs and
backs off). -/
inductive CycleOutcome
  | ok (now : Nat)
  | raises (msg : String)
deriving Repr, DecidableEq

/-- One iteration of the `_monitor_user` loop: a cancelled task stops at
its next suspension point (asyncio `CancelledError` is not an `Exception`
and escapes the body); otherwise the guard is evaluated, and when it holds
the body runs and the loop continues whether the cycle completed or raised
(the exception is caught, logged, and followed by a backoff sleep).  The
boolean result reports whether the loop is still running. -/
def monitorIterate (username : String) (clients : List (String × IGClient))
    (st : MonitorState) (o : CycleOutcome) : MonitorState × Bool :=
  if st.cancelled.contains username then (st, false)
  else if monitorLoopGuard st.monitoring clients username then
    match o with
    | .ok now => ({ st with lastChecks := setLastCheck username now st.lastChecks }, true)
    | .raises _ => (st, true)
  else (st, false)

/-- `InstagramMonitor.stop_user_monitoring`: when the username has a
monitoring task, cancel it and delete it from `monitoring_tasks`; the
`last_check_timestamps` entry is not touched. -/
def stopUserMonitoring (username : String) (st : MonitorState) : MonitorState :=
  if st.monitoringTasks.contains username then
    { st with monitoringTasks := st.monitoringTasks.erase username,
              cancelled := st.cancelled ++ [username] }
  else st

/-- `InstagramMonitor.get_monitoring_status` payload. -/
structure MonitoringStatus where
  monitoring : Bool
  active_monitors : List String
  last_checks : List (String × Nat)
deriving Repr, DecidableEq

/-- `InstagramMonitor.get_monitoring_status`: the flag, the keys of
`monitoring_tasks`, and the full `last_check_timestamps` map. -/
def getMonitoringStatus (st : MonitorState) : MonitoringStatus :=
  { monitoring := st.monitoring, active_monitors := st.monitoringTasks,
    last_checks := st.lastChecks }

/-! ## Helper lemmas -/

/-- Looking up a username right after registering it yields the registered
handle (dict update semantics of `add_client`). -/
theorem getClient_addClient (u : String) (c : IGClient) (reg : List (String × IGClient)) :
    getClient u (addClient u c reg) = some c := by
  simp [getClient, addClient]

/-- Looking up a username right after `remove_client` yields nothing. -/
theorem getClient_removeClient (u : String) (reg : List (String × IGClient)) :
    getClient u (removeClient u reg) = none := by
  unfold getClient removeClient
  rw [List.find?_eq_none.mpr]
  · rfl
  · intro p hp
    have := List.of_mem_filter hp
    simp at this ⊢
    exact this

/-- Dropping the entries of username `u` does not change what a lookup of
a different username `v` finds. -/
theorem find?_filter_ne (u v : String) (reg : List (String × IGClient)) (h : v ≠ u) :
    List.find? (fun p => p.1 == v) (reg.filter (fun p => p.1 != u))
      = List.find? (fun p => p.1 == v) reg := by
  induction reg with
  | nil => rfl
  | cons p l ih =>
    rw [List.filter_cons]
    by_cases hu : p.1 = u
    · rw [if_neg (by simp [hu]), ih, List.find?_cons_of_neg _ (by simp [hu, Ne.symm h])]
    · rw [if_pos (by simp [hu])]
      by_cases hv : p.1 = v
      · rw [List.find?_cons_of_pos _ (by simp [hv]), List.find?_cons_of_pos _ (by simp [hv])]
      · rw [List.find?_cons_of_neg _ (by simp [hv]), List.find?_cons_of_neg _ (by simp [hv]), ih]

/-- Registering one username does not change what lookups of other
usernames see. -/
theorem getClient_addClient_ne (u v : String) (c : IGClient)
    (reg : List (String × IGClient)) (h : v ≠ u) :
    getClient v (addClient u c reg) = getClient v reg := by
  unfold getClient addClient
  have h1 : List.find? (fun p => p.1 == v) ((u, c) :: reg.filter (fun p => p.1 != u))
      = List.find? (fun p => p.1 == v) (reg.filter (fun p => p.1 != u)) := by
    have hb : ((u, c).1 == v) = false := by simp [Ne.symm h]
    simp [List.find?_cons, hb]
  rw [h1, find?_filter_ne u v reg h]

/-- A string with a three-character fragment different from the start of
`b` stays different from `b` after appending anything. -/
theorem string_append_ne (a m b : String) (h3 : 3 ≤ a.data.length)
    (h : a.data.take 3 ≠ b.data.take 3) : a ++ m ≠ b := by
  intro he
  apply h
  have hd := congrArg String.data he
  rw [String.data_append] at hd
  have ht := congrArg (List.take 3) hd
  rwa [List.take_append_eq_append_take, Nat.sub_eq_zero_of_le h3, List.take_zero,
    List.append_nil] at ht

/-! ## C10: `log_event` still returns the generated id when the database
write raises -/

/-- C10: when the durable write inside `log_event` raises (persistence
completely unavailable), the call still returns the freshly generated
non-empty event id without raising, and the event table is unchanged, so
a non-empty returned id does not imply a durable record exists. -/
theorem C10_logEvent_returns_id_on_db_failure (url : Option String) (dbUpdateOk : Bool)
    (genId : String) (now : Nat) (u et ed : String) (o : TransportOutcome)
    (db : List EventRecord) (hId : genId ≠ "") :
    (logEvent url false dbUpdateOk genId now u et ed o db).event_id = genId ∧
    (logEvent url false dbUpdateOk genId now u et ed o db).event_id ≠ "" ∧
    (logEvent url false dbUpdateOk genId now u et ed o db).db = db := by
  refine ⟨rfl, ?_, rfl⟩
  simpa [logEvent] using hId

/-- Witness for C10 at a concrete input. -/
theorem C10_logEvent_returns_id_on_db_failure_witness :
    (logEvent (some "http://recv") false true "e1" 3 "alice" "new_message" "d"
        TransportOutcome.timeout []).event_id = "e1" ∧
    (logEvent (some "http://recv") false true "e1" 3 "alice" "new_message" "d"
        TransportOutcome.timeout []).event_id ≠ "" ∧
    (logEvent (some "http://recv") false true "e1" 3 "alice" "new_message" "d"
        TransportOutcome.timeout []).db = [] :=
  C10_logEvent_returns_id_on_db_failure (some "http://recv") true "e1" 3 "alice"
    "new_message" "d" TransportOutcome.timeout [] (by decide)

/-! ## C2: `log_event` records exactly one durable event whatever the
transport outcome -/

/-- C2: for every webhook transport outcome, `log_event` (with working
persistence) returns the non-empty generated id and appends exactly one
event row with `processed = false` whose `webhook_sent` flag equals the
delivery outcome; the row is fetchable through `get_webhook_events` even
when delivery failed. -/
theorem C2_logEvent_always_records (url : Option String) (genId : String) (now : Nat)
    (u et ed : String) (o : TransportOutcome) (db : List EventRecord) (limit : Nat)
    (hId : genId ≠ "") (hlim : db.length + 1 ≤ limit) :
    (logEvent url true true genId now u et ed o db).event_id = genId ∧
    (logEvent url true true genId now u et ed o db).event_id ≠ "" ∧
    ∃ e : EventRecord,
      (logEvent url true true genId now u et ed o db).db = db ++ [e] ∧
      e.id = genId ∧ e.processed = false ∧ e.webhook_sent = sendWebhook url o ∧
      e ∈ (listEvents (logEvent url true true genId now u et ed o db).db limit none).1 := by
  refine ⟨rfl, hId, ?_⟩
  refine ⟨{ id := genId, username := u, event_type := et, event_data := ed,
            processed := false, webhook_sent := sendWebhook url o,
            webhook_response := some (if sendWebhook url o then "Success" else "Failed"),
            created_at := now }, ?_, rfl, rfl, rfl, ?_⟩
  · simp [logEvent]
  · have hdb : (logEvent url true true genId now u et ed o db).db
        = db ++ [{ id := genId, username := u, event_type := et, event_data := ed,
                   processed := false, webhook_sent := sendWebhook url o,
                   webhook_response := some (if sendWebhook url o then "Success" else "Failed"),
                   created_at := now }] := by
      simp [logEvent]
    rw [hdb]
    unfold listEvents
    simp only
    have hperm := List.mergeSort_perm
      (db ++ [{ id := genId, username := u, event_type := et, event_data := ed,
                processed := false, webhook_sent := sendWebhook url o,
                webhook_response := some (if sendWebhook url o then "Success" else "Failed"),
                created_at := now }])
      (fun a b : EventRecord => Nat.ble b.created_at a.created_at)
    rw [List.take_of_length_le]
    · exact hperm.mem_iff.mpr (by simp)
    · rw [hperm.length_eq]
      simpa using hlim

/-- Witness for C2 at a concrete input (transport failure: timeout). -/
theorem C2_logEvent_always_records_witness :
    (logEvent (some "http://recv") true true "e1" 3 "alice" "new_message" "d"
        TransportOutcome.timeout []).event_id = "e1" ∧
    (logEvent (some "http://recv") true true "e1" 3 "alice" "new_message" "d"
        TransportOutcome.timeout []).event_id ≠ "" ∧
    ∃ e : EventRecord,
      (logEvent (some "http://recv") true true "e1" 3 "alice" "new_message" "d"
          TransportOutcome.timeout []).db = [] ++ [e] ∧
      e.id = "e1" ∧ e.processed = false ∧
      e.webhook_sent = sendWebhook (some "http://recv") TransportOutcome.timeout ∧
      e ∈ (listEvents (logEvent (some "http://recv") true true "e1" 3 "alice"
          "new_message" "d" TransportOutcome.timeout []).db 50 none).1 :=
  C2_logEvent_always_records (some "http://recv") "e1" 3 "alice" "new_message" "d"
    TransportOutcome.timeout [] 50 (by decide) (by decide)

/-! ## C3: a valid stored session is reused without calling the login
endpoint -/

/-- C3: when an `is_active` stored session exists and its restored client
passes the account-info probe, `login` succeeds with the message
`Using existing session`, registers the restored handle, and never
invokes the remote login endpoint. -/
theorem C3_login_reuses_session (env : LoginEnv) (username password : String)
    (clients : List (String × IGClient)) (db : List SessionRec) (s : SessionRec)
    (info : String)
    (hconn : env.connOk = true) (hq : env.queryOk = true)
    (hfind : db.find? (fun r => r.username == username && r.is_active) = some s)
    (hprobe : env.probe = ProbeResult.ok info) :
    (login env username password clients db).success = true ∧
    (login env username password clients db).message = "Using existing session" ∧
    getClient username (login env username password clients db).clients =
      some { settings := s.session_data } ∧
    (login env username password clients db).loginCalled = false := by
  have hres : login env username password clients db =
      { success := true, message := "Using existing session",
        clients := addClient username { settings := s.session_data } clients,
        db := db, loginCalled := false } := by
    unfold login
    rw [if_pos hconn, if_pos hq, hfind, hprobe]
  rw [hres]
  exact ⟨rfl, rfl, getClient_addClient .., rfl⟩

/-- Concrete login environment used by witnesses: everything healthy, the
probe succeeds, and the remote login endpoint would succeed. -/
def happyEnv : LoginEnv :=
  { connOk := true, queryOk := true, probe := ProbeResult.ok "profile",
    markInactiveOk := true, remote := RemoteLogin.ok,
    freshProbe := ProbeResult.ok "profile", newBlob := "nb", saveOk := true }

/-- Concrete stored session row used by witnesses. -/
def aliceRow : SessionRec :=
  { username := "alice", session_data := "blob", is_active := true }

/-- Witness for C3 at a concrete input. -/
theorem C3_login_reuses_session_witness :
    (login happyEnv "alice" "pw" [] [aliceRow]).success = true ∧
    (login happyEnv "alice" "pw" [] [aliceRow]).message = "Using existing session" ∧
    getClient "alice" (login happyEnv "alice" "pw" [] [aliceRow]).clients =
      some { settings := "blob" } ∧
    (login happyEnv "alice" "pw" [] [aliceRow]).loginCalled = false :=
  C3_login_reuses_session happyEnv "alice" "pw" [] [aliceRow] aliceRow "profile"
    rfl rfl (by decide) rfl

/-! ## C6: persistence failure during a successful login is swallowed -/

/-- C6: when the remote login call succeeds (and the follow-up account
probe does not raise), a failing session-persistence commit changes
nothing observable: the handle is still registered, the call still
reports success, the stored table is simply left untouched, and success
and registry agree with what a working commit would have produced. -/
theorem C6_login_survives_save_failure (env : LoginEnv) (username : String)
    (existing : Option SessionRec) (clients : List (String × IGClient))
    (db : List SessionRec)
    (hremote : env.remote = RemoteLogin.ok)
    (hprobe : ∀ m, env.freshProbe ≠ ProbeResult.raises m)
    (hsave : env.saveOk = false) :
    (freshLogin env username existing clients db).success = true ∧
    (freshLogin env username existing clients db).message = "Login successful" ∧
    getClient username (freshLogin env username existing clients db).clients =
      some { settings := env.newBlob } ∧
    (freshLogin env username existing clients db).db = db ∧
    (freshLogin env username existing clients db).success =
      (freshLogin { env with saveOk := true } username existing clients db).success ∧
    (freshLogin env username existing clients db).clients =
      (freshLogin { env with saveOk := true } username existing clients db).clients := by
  have hres : freshLogin env username existing clients db =
      { success := true, message := "Login successful",
        clients := addClient username { settings := env.newBlob } clients,
        db := db, loginCalled := true } := by
    unfold freshLogin
    rw [hremote]
    cases hfp : env.freshProbe with
    | ok i => simp [hsave]
    | nullInfo => simp [hsave]
    | raises m => exact absurd hfp (hprobe m)
  have hres2 : (freshLogin { env with saveOk := true } username existing clients db).success
        = true ∧
      (freshLogin { env with saveOk := true } username existing clients db).clients
        = addClient username { settings := env.newBlob } clients := by
    unfold freshLogin
    rw [show ({ env with saveOk := true } : LoginEnv).remote = RemoteLogin.ok from hremote]
    cases hfp : env.freshProbe with
    | ok i => simp [hfp]
    | nullInfo => simp [hfp]
    | raises m => exact absurd hfp (hprobe m)
  rw [hres]
  refine ⟨rfl, rfl, getClient_addClient .., rfl, ?_, ?_⟩
  · exact hres2.1.symm
  · exact hres2.2.symm

/-- Witness for C6 at a concrete input (commit fails, login still ok). -/
theorem C6_login_survives_save_failure_witness :
    (freshLogin { happyEnv with saveOk := false } "alice" none [] []).success = true ∧
    (freshLogin { happyEnv with saveOk := false } "alice" none [] []).message =
      "Login successful" ∧
    getClient "alice" (freshLogin { happyEnv with saveOk := false } "alice" none [] []).clients =
      some { settings := "nb" } ∧
    (freshLogin { happyEnv with saveOk := false } "alice" none [] []).db = [] ∧
    (freshLogin { happyEnv with saveOk := false } "alice" none [] []).success =
      (freshLogin { { happyEnv with saveOk := false } with saveOk := true }
        "alice" none [] []).success ∧
    (freshLogin { happyEnv with saveOk := false } "alice" none [] []).clients =
      (freshLogin { { happyEnv with saveOk := false } with saveOk := true }
        "alice" none [] []).clients :=
  C6_login_survives_save_failure { happyEnv with saveOk := false } "alice" none [] []
    rfl (by intro m hm; simp [happyEnv] at hm) rfl

/-! ## C7: logout is idempotent -/

/-- C7: `logout` reports success whatever the remote call and the
database update do, and doing it twice in a row reports success both
times and leaves the Client Registry without the account. -/
theorem C7_logout_idempotent (env1 env2 : LogoutEnv) (username : String)
    (clients : List (String × IGClient)) (db : List SessionRec) :
    (logout env1 username clients db).success = true ∧
    getClient username (logout env1 username clients db).clients = none ∧
    (logout env2 username (logout env1 username clients db).clients
        (logout env1 username clients db).db).success = true ∧
    getClient username (logout env2 username (logout env1 username clients db).clients
        (logout env1 username clients db).db).clients = none :=
  ⟨rfl, getClient_removeClient .., rfl, getClient_removeClient ..⟩

/-! ## C8: reasons for which the monitoring loop stops -/

/-- Concrete registry holding only alice, used by monitor counterexamples
and witnesses. -/
def regAlice : List (String × IGClient) := [("alice", { settings := "b" })]

/-- Monitor state with the global flag cleared while alice still has a
running (not cancelled) task. -/
def stFlagCleared : MonitorState :=
  { monitoring := false, monitoringTasks := ["alice"], lastChecks := [], cancelled := [] }

/-- C8 counterexample: the claim states the loop never stops while the
account is registered and the task is not cancelled, but the loop guard
also tests the global `monitoring` flag.  With the flag cleared, the
account still registered, and the task not cancelled, the iteration stops
the loop. -/
theorem C8_counterexample :
    (monitorIterate "alice" regAlice stFlagCleared (CycleOutcome.ok 0)).2 = false ∧
    "alice" ∈ getAllUsernames regAlice ∧
    "alice" ∉ stFlagCleared.cancelled := by
  refine ⟨rfl, ?_, ?_⟩
  · simp [getAllUsernames, regAlice]
  · simp [stFlagCleared]

/-- C8 amended: one iteration of the per-account loop keeps the loop
running exactly when the task is not cancelled, the global `monitoring`
flag is set, and the account is still in the Client Registry — in
particular the body outcome (completed cycle or caught exception) never
stops the loop, and clearing the global flag is a third stop reason
beside cancellation and registry removal. -/
theorem C8_loop_guard (username : String) (clients : List (String × IGClient))
    (st : MonitorState) (o : CycleOutcome) :
    (monitorIterate username clients st o).2 = true ↔
      (username ∉ st.cancelled ∧ st.monitoring = true ∧
        username ∈ getAllUsernames clients) := by
  unfold monitorIterate monitorLoopGuard
  by_cases hc : username ∈ st.cancelled
  · simp [hc]
  · by_cases hm : st.monitoring = true
    · by_cases hu : username ∈ getAllUsernames clients
      · cases o <;> simp [hc, hm, hu]
      · cases o <;> simp [hc, hm, hu]
    · cases o <;> simp [hc, hm]

/-! ## C9: what `stop_user_monitoring` destroys -/

/-- Monitor state in which alice has a running task and a recorded last
check. -/
def stAliceRunning : MonitorState :=
  { monitoring := true, monitoringTasks := ["alice"], lastChecks := [("alice", 7)],
    cancelled := [] }

/-- C9 counterexample: the claim states that after `stop_one` the status
no longer lists the account in the per-account last-check map, but
`stop_user_monitoring` deletes only the `monitoring_tasks` entry; the
`last_check_timestamps` entry survives and `get_monitoring_status` still
lists it. -/
theorem C9_counterexample :
    "alice" ∉ (getMonitoringStatus (stopUserMonitoring "alice" stAliceRunning)).active_monitors ∧
    "alice" ∈ ((getMonitoringStatus (stopUserMonitoring "alice" stAliceRunning)).last_checks.map
        (fun p => p.1)) := by
  constructor
  · simp [stopUserMonitoring, getMonitoringStatus, stAliceRunning]
  · simp [stopUserMonitoring, getMonitoringStatus, stAliceRunning]

/-- C9 amended: `stop_user_monitoring` removes the account from the
active monitors reported by `get_monitoring_status` and cancels its task
when one was running, but it leaves the per-account last-check map
untouched (the entry, when present, is still listed). -/
theorem C9_stop_user_monitoring (username : String) (st : MonitorState)
    (hnd : st.monitoringTasks.Nodup) :
    username ∉ (getMonitoringStatus (stopUserMonitoring username st)).active_monitors ∧
    (getMonitoringStatus (stopUserMonitoring username st)).last_checks = st.lastChecks ∧
    (username ∈ st.monitoringTasks →
      username ∈ (stopUserMonitoring username st).cancelled) := by
  by_cases h : st.monitoringTasks.contains username = true
  · have hst : stopUserMonitoring username st =
        { st with monitoringTasks := st.monitoringTasks.erase username,
                  cancelled := st.cancelled ++ [username] } := by
      unfold stopUserMonitoring
      rw [if_pos h]
    rw [hst]
    unfold getMonitoringStatus
    refine ⟨?_, rfl, ?_⟩
    · intro hmem
      exact absurd ((hnd.mem_erase_iff).mp hmem).1 (by simp)
    · intro _
      simp
  · have hst : stopUserMonitoring username st = st := by
      unfold stopUserMonitoring
      rw [if_neg h]
    rw [hst]
    unfold getMonitoringStatus
    have hnm : username ∉ st.monitoringTasks := by simpa using h
    exact ⟨hnm, rfl, fun hmem => absurd hmem hnm⟩

/-- Monitor state in which alice and bob both have running tasks. -/
def stTwoRunning : MonitorState :=
  { monitoring := true, monitoringTasks := ["alice", "bob"],
    lastChecks := [("alice", 7)], cancelled := [] }

/-- Witness for the amended C9 at a concrete input. -/
theorem C9_stop_user_monitoring_witness :
    "alice" ∉ (getMonitoringStatus (stopUserMonitoring "alice" stTwoRunning)).active_monitors ∧
    (getMonitoringStatus (stopUserMonitoring "alice" stTwoRunning)).last_checks =
      stTwoRunning.lastChecks ∧
    ("alice" ∈ stTwoRunning.monitoringTasks →
      "alice" ∈ (stopUserMonitoring "alice" stTwoRunning).cancelled) :=
  C9_stop_user_monitoring "alice" stTwoRunning (by decide)

/-! ## C5: fresh login success and the three remote failure classes -/

/-- C5: with no stored active session, a login whose remote call succeeds
registers the handle and reports success; a remote `BadPassword`,
`ChallengeRequired` or `ClientError` reports failure with its own
distinct non-throwing message and leaves the registry without the
account; the three failure messages are pairwise distinct. -/
theorem C5_login_fresh_paths (env : LoginEnv) (username password : String)
    (clients : List (String × IGClient)) (db : List SessionRec)
    (hconn : env.connOk = true) (hq : env.queryOk = true)
    (hnone : db.find? (fun s => s.username == username && s.is_active) = none)
    (hreg : getClient username clients = none) :
    (env.remote = RemoteLogin.ok → (∀ m, env.freshProbe ≠ ProbeResult.raises m) →
      (login env username password clients db).success = true ∧
      getClient username (login env username password clients db).clients =
        some { settings := env.newBlob }) ∧
    (env.remote = RemoteLogin.badPassword →
      (login env username password clients db).success = false ∧
      (login env username password clients db).message = "Invalid username or password" ∧
      getClient username (login env username password clients db).clients = none) ∧
    (env.remote = RemoteLogin.challengeRequired →
      (login env username password clients db).success = false ∧
      (login env username password clients db).message =
        "Challenge required - please try logging in through Instagram app first" ∧
      getClient username (login env username password clients db).clients = none) ∧
    (∀ m, env.remote = RemoteLogin.clientError m →
      (login env username password clients db).success = false ∧
      (login env username password clients db).message = "Instagram API error: " ++ m ∧
      getClient username (login env username password clients db).clients = none) ∧
    (∀ m : String,
      ("Invalid username or password" : String) ≠
        "Challenge required - please try logging in through Instagram app first" ∧
      ("Instagram API error: " ++ m : String) ≠ "Invalid username or password" ∧
      ("Instagram API error: " ++ m : String) ≠
        "Challenge required - please try logging in through Instagram app first") := by
  have hlf : login env username password clients db
      = freshLogin env username none clients db := by
    unfold login
    rw [if_pos hconn, if_pos hq, hnone]
  refine ⟨?_, ?_, ?_, ?_, ?_⟩
  · intro hr hp
    rw [hlf]
    unfold freshLogin
    rw [hr]
    cases hfp : env.freshProbe with
    | ok i => exact ⟨rfl, getClient_addClient ..⟩
    | nullInfo => exact ⟨rfl, getClient_addClient ..⟩
    | raises m => exact absurd hfp (hp m)
  · intro hr
    rw [hlf]
    unfold freshLogin
    rw [hr]
    exact ⟨rfl, rfl, hreg⟩
  · intro hr
    rw [hlf]
    unfold freshLogin
    rw [hr]
    exact ⟨rfl, rfl, hreg⟩
  · intro m hr
    rw [hlf]
    unfold freshLogin
    rw [hr]
    exact ⟨rfl, rfl, hreg⟩
  · intro m
    refine ⟨by decide, ?_, ?_⟩
    · exact string_append_ne "Instagram API error: " m "Invalid username or password"
        (by decide) (by decide)
    · exact string_append_ne "Instagram API error: " m
        "Challenge required - please try logging in through Instagram app first"
        (by decide) (by decide)

/-- Concrete login environment in which the remote endpoint reports a bad
password. -/
def badPwEnv : LoginEnv := { happyEnv with remote := RemoteLogin.badPassword }

/-- Witness for C5 at a concrete input (bad-password branch inhabited,
success branch and the others vacuous or universal). -/
theorem C5_login_fresh_paths_witness :
    (badPwEnv.remote = RemoteLogin.ok →
      (∀ m, badPwEnv.freshProbe ≠ ProbeResult.raises m) →
      (login badPwEnv "alice" "pw" [] []).success = true ∧
      getClient "alice" (login badPwEnv "alice" "pw" [] []).clients =
        some { settings := badPwEnv.newBlob }) ∧
    (badPwEnv.remote = RemoteLogin.badPassword →
      (login badPwEnv "alice" "pw" [] []).success = false ∧
      (login badPwEnv "alice" "pw" [] []).message = "Invalid username or password" ∧
      getClient "alice" (login badPwEnv "alice" "pw" [] []).clients = none) ∧
    (badPwEnv.remote = RemoteLogin.challengeRequired →
      (login badPwEnv "alice" "pw" [] []).success = false ∧
      (login badPwEnv "alice" "pw" [] []).message =
        "Challenge required - please try logging in through Instagram app first" ∧
      getClient "alice" (login badPwEnv "alice" "pw" [] []).clients = none) ∧
    (∀ m, badPwEnv.remote = RemoteLogin.clientError m →
      (login badPwEnv "alice" "pw" [] []).success = false ∧
      (login badPwEnv "alice" "pw" [] []).message = "Instagram API error: " ++ m ∧
      getClient "alice" (login badPwEnv "alice" "pw" [] []).clients = none) ∧
    (∀ m : String,
      ("Invalid username or password" : String) ≠
        "Challenge required - please try logging in through Instagram app first" ∧
      ("Instagram API error: " ++ m : String) ≠ "Invalid username or password" ∧
      ("Instagram API error: " ++ m : String) ≠
        "Challenge required - please try logging in through Instagram app first") :=
  C5_login_fresh_paths badPwEnv "alice" "pw" [] [] rfl rfl rfl rfl

/-! ## C4: restoring sessions at startup -/

/-- Splitting a list by a boolean predicate preserves the total length. -/
theorem filter_length_partition {α : Type _} (p : α → Bool) (l : List α) :
    (l.filter p).length + (l.filter (fun a => !p a)).length = l.length := by
  induction l with
  | nil => rfl
  | cons a l ih =>
    by_cases h : p a = true <;> simp [List.filter_cons, h] <;> omega

/-- Adding a fresh username grows the registry by exactly one entry. -/
theorem addClient_length_of_not_mem (u : String) (c : IGClient)
    (cs : List (String × IGClient)) (h : ∀ p ∈ cs, p.1 ≠ u) :
    (addClient u c cs).length = cs.length + 1 := by
  unfold addClient
  rw [List.filter_eq_self.mpr]
  · simp
  · intro p hp
    simpa using h p hp

/-- Folding `add_client` over rows with pairwise distinct usernames that
are not yet registered grows the registry by the number of rows. -/
theorem foldl_addClient_length : ∀ (rs : List SessionRec) (cs : List (String × IGClient)),
    (rs.map (fun s => s.username)).Nodup →
    (∀ s ∈ rs, ∀ p ∈ cs, p.1 ≠ s.username) →
    (rs.foldl (fun acc s => addClient s.username { settings := s.session_data } acc) cs).length
      = cs.length + rs.length
  | [], cs, _, _ => by simp
  | s :: rs, cs, hnd, hdisj => by
    have hhead : s.username ∉ rs.map (fun s => s.username) :=
      (List.nodup_cons.mp hnd).1
    have hnd2 : (rs.map (fun s => s.username)).Nodup :=
      (List.nodup_cons.mp hnd).2
    have h1 : (addClient s.username { settings := s.session_data } cs).length
        = cs.length + 1 :=
      addClient_length_of_not_mem _ _ _ (fun p hp => hdisj s (by simp) p hp)
    have hdisj2 : ∀ t ∈ rs, ∀ p ∈ addClient s.username { settings := s.session_data } cs,
        p.1 ≠ t.username := by
      intro t ht p hp he
      unfold addClient at hp
      rcases List.mem_cons.mp hp with h | h
      · apply hhead
        have he2 : s.username = t.username := by
          rw [h] at he
          exact he
        rw [he2]
        exact List.mem_map.mpr ⟨t, ht, rfl⟩
      · exact hdisj t (List.mem_cons_of_mem _ ht) p (List.mem_of_mem_filter h) he
    rw [List.foldl_cons, foldl_addClient_length rs _ hnd2 hdisj2, h1]
    simp only [List.length_cons]
    omega

/-- Mapping the deactivation step of `load_existing_sessions` over the
table increases the count of inactive rows by exactly the number of
active rows whose probe fails. -/
theorem flip_inactive_count (probe : String → ProbeResult) (db : List SessionRec) :
    ((db.map (fun s => if s.is_active && !probeOk (probe s.username) then
        { s with is_active := false } else s)).filter (fun s => !s.is_active)).length
      = (db.filter (fun s => !s.is_active)).length
        + ((db.filter (fun s => s.is_active)).filter
            (fun s => !probeOk (probe s.username))).length := by
  induction db with
  | nil => rfl
  | cons s l ih =>
    by_cases ha : s.is_active = true
    · by_cases hp : probeOk (probe s.username) = true
      · simp [List.filter_cons, ha, hp] at ih ⊢
        omega
      · simp [List.filter_cons, ha, hp] at ih ⊢
        omega
    · simp [List.filter_cons, ha] at ih ⊢
      omega

/-- C4: with N stored active sessions of which K fail the
restore-and-verify probe, `load_existing_sessions` returns N minus K,
registers exactly N minus K client handles (starting from an empty
registry), and flips exactly K rows to inactive; a failing account never
aborts the batch, every row is still processed. -/
theorem C4_load_existing_sessions (probe : String → ProbeResult) (db : List SessionRec)
    (hnd : ((db.filter (fun s => s.is_active)).map (fun s => s.username)).Nodup) :
    (loadExistingSessions probe [] db).1
      = (db.filter (fun s => s.is_active)).length
        - ((db.filter (fun s => s.is_active)).filter
            (fun s => !probeOk (probe s.username))).length ∧
    (loadExistingSessions probe [] db).2.1.length
      = (db.filter (fun s => s.is_active)).length
        - ((db.filter (fun s => s.is_active)).filter
            (fun s => !probeOk (probe s.username))).length ∧
    ((loadExistingSessions probe [] db).2.2.filter (fun s => !s.is_active)).length
      = (db.filter (fun s => !s.is_active)).length
        + ((db.filter (fun s => s.is_active)).filter
            (fun s => !probeOk (probe s.username))).length := by
  have hcount : (loadExistingSessions probe [] db).1
      = ((db.filter (fun s => s.is_active)).filter
          (fun s => probeOk (probe s.username))).length := rfl
  have hclients : (loadExistingSessions probe [] db).2.1
      = ((db.filter (fun s => s.is_active)).filter
          (fun s => probeOk (probe s.username))).foldl
          (fun acc s => addClient s.username { settings := s.session_data } acc) [] := rfl
  have hdb : (loadExistingSessions probe [] db).2.2
      = db.map (fun s => if s.is_active && !probeOk (probe s.username) then
          { s with is_active := false } else s) := rfl
  have hpart := filter_length_partition (fun s => probeOk (probe s.username))
    (db.filter (fun s => s.is_active))
  refine ⟨?_, ?_, ?_⟩
  · rw [hcount]
    omega
  · rw [hclients]
    have hnd2 : (((db.filter (fun s => s.is_active)).filter
        (fun s => probeOk (probe s.username))).map (fun s => s.username)).Nodup :=
      List.Nodup.sublist ((List.filter_sublist _).map _) hnd
    rw [foldl_addClient_length _ [] hnd2 (by intro s _ p hp; simp at hp)]
    simp only [List.length_nil, Nat.zero_add]
    omega
  · rw [hdb]
    exact flip_inactive_count probe db

/-- Concrete probe behaviour for the C4 witness: the stored session of
bob raises on verification, every other account verifies. -/
def probeW : String → ProbeResult :=
  fun u => if u == "bob" then ProbeResult.raises "dead" else ProbeResult.ok "p"

/-- Concrete session table for the C4 witness: two active rows (one of
which fails verification) and one inactive row. -/
def dbW : List SessionRec :=
  [aliceRow, { username := "bob", session_data := "sb", is_active := true },
    { username := "carol", session_data := "sc", is_active := false }]

/-- Witness for C4 at a concrete input: N = 2 active rows, K = 1 probe
failure. -/
theorem C4_load_existing_sessions_witness :
    (loadExistingSessions probeW [] dbW).1
      = (dbW.filter (fun s => s.is_active)).length
        - ((dbW.filter (fun s => s.is_active)).filter
            (fun s => !probeOk (probeW s.username))).length ∧
    (loadExistingSessions probeW [] dbW).2.1.length
      = (dbW.filter (fun s => s.is_active)).length
        - ((dbW.filter (fun s => s.is_active)).filter
            (fun s => !probeOk (probeW s.username))).length ∧
    ((loadExistingSessions probeW [] dbW).2.2.filter (fun s => !s.is_active)).length
      = (dbW.filter (fun s => !s.is_active)).length
        + ((dbW.filter (fun s => s.is_active)).filter
            (fun s => !probeOk (probeW s.username))).length :=
  C4_load_existing_sessions probeW dbW (by decide)

/-! ## C1: timestamp-based novelty detection in the message check -/

/-- The message check is the scan of the examined (thread id, message)
pairs. -/
theorem checkMessages_eq_filterMap (selfId : Nat) (lastCheck : Int)
    (threads : List IGThread) :
    checkMessages selfId lastCheck threads
      = (examinedPairs threads).filterMap
          (fun p => scanMessage selfId lastCheck p.1 p.2) := by
  unfold checkMessages examinedPairs checkThread
  rw [List.filterMap_flatMap]
  congr 1
  funext t
  rw [List.filterMap_map]
  rfl

/-- On pairs none of which is authored by the monitored account, the scan
keeps exactly the messages strictly newer than the checkpoint. -/
theorem filterMap_scan_of_no_self (selfId : Nat) (lastCheck : Int)
    (ps : List (String × IGMessage))
    (h : ∀ p ∈ ps, p.2.user_id ≠ selfId) :
    ps.filterMap (fun p => scanMessage selfId lastCheck p.1 p.2)
      = (ps.filter (fun p => decide (lastCheck < p.2.timestamp))).map
          (fun p => msgEvent p.1 p.2) := by
  induction ps with
  | nil => rfl
  | cons p ps ih =>
    have hp : p.2.user_id ≠ selfId := h p (by simp)
    have hps : ∀ q ∈ ps, q.2.user_id ≠ selfId := fun q hq => h q (by simp [hq])
    by_cases ht : lastCheck < p.2.timestamp
    · have hsome : scanMessage selfId lastCheck p.1 p.2 = some (msgEvent p.1 p.2) := by
        unfold scanMessage
        rw [if_neg (by simpa using hp), if_pos ht]
      rw [@List.filterMap_cons_some (String × IGMessage) MessageEvent
          (fun q => scanMessage selfId lastCheck q.1 q.2) p ps (msgEvent p.1 p.2) hsome,
        List.filter_cons, if_pos (by simpa using ht), List.map_cons, ih hps]
    · have hnone : scanMessage selfId lastCheck p.1 p.2 = none := by
        unfold scanMessage
        rw [if_neg (by simpa using hp), if_neg ht]
      rw [@List.filterMap_cons_none (String × IGMessage) MessageEvent
          (fun q => scanMessage selfId lastCheck q.1 q.2) p ps hnone,
        List.filter_cons, if_neg (by simpa using ht), ih hps]

/-- C1: for a checkpoint T and an examined message window whose
timestamps are exactly the multiset T-1, T, T+1 with every author
different from the monitored account, the message check forwards exactly
the one message stamped T+1 (strict greater-than comparison); and in
general every forwarded event comes from an examined message that is not
authored by the account itself and is strictly newer than the checkpoint,
so a self-authored message is never forwarded. -/
theorem C1_message_novelty (selfId : Nat) (T : Int) (threads : List IGThread)
    (hts : ((examinedPairs threads).map (fun p => p.2.timestamp)).Perm [T - 1, T, T + 1])
    (hother : ∀ p ∈ examinedPairs threads, p.2.user_id ≠ selfId) :
    (∃ p ∈ examinedPairs threads, p.2.timestamp = T + 1 ∧
        checkMessages selfId T threads = [msgEvent p.1 p.2]) ∧
    (∀ (selfId2 : Nat) (T2 : Int) (threads2 : List IGThread) (e : MessageEvent),
        e ∈ checkMessages selfId2 T2 threads2 →
        ∃ p ∈ examinedPairs threads2, p.2.user_id ≠ selfId2 ∧ T2 < p.2.timestamp ∧
          e = msgEvent p.1 p.2) := by
  constructor
  · have hmap : ((examinedPairs threads).filter
          (fun p => decide (T < p.2.timestamp))).map (fun p => p.2.timestamp)
        = ((examinedPairs threads).map (fun p => p.2.timestamp)).filter
          (fun x => decide (T < x)) := by
      rw [List.filter_map]
      rfl
    have hconst : [T - 1, T, T + 1].filter (fun x => decide (T < x)) = [T + 1] := by
      have h1 : ¬ (T < T - 1) := by omega
      have h2 : ¬ (T < T) := by omega
      have h3 : T < T + 1 := by omega
      simp [List.filter_cons, h1, h2, h3]
    have hsing : (((examinedPairs threads).filter
          (fun p => decide (T < p.2.timestamp))).map (fun p => p.2.timestamp)) = [T + 1] := by
      rw [hmap]
      exact List.perm_singleton.mp (hconst ▸ hts.filter (fun x => decide (T < x)))
    obtain ⟨p, hkept⟩ : ∃ p, (examinedPairs threads).filter
        (fun p => decide (T < p.2.timestamp)) = [p] := by
      cases hk : (examinedPairs threads).filter (fun p => decide (T < p.2.timestamp)) with
      | nil =>
        rw [hk] at hsing
        simp at hsing
      | cons a l =>
        cases l with
        | nil => exact ⟨a, rfl⟩
        | cons b l2 =>
          rw [hk] at hsing
          simp at hsing
    have hts1 : p.2.timestamp = T + 1 := by
      rw [hkept] at hsing
      simpa using hsing
    have hpmem : p ∈ examinedPairs threads :=
      List.mem_of_mem_filter (by rw [hkept]; exact List.mem_singleton_self p)
    refine ⟨p, hpmem, hts1, ?_⟩
    rw [checkMessages_eq_filterMap, filterMap_scan_of_no_self selfId T _ hother, hkept]
    rfl
  · intro selfId2 T2 threads2 e he
    rw [checkMessages_eq_filterMap] at he
    obtain ⟨p, hp, hfp⟩ := List.mem_filterMap.mp he
    unfold scanMessage at hfp
    by_cases h1 : (p.2.user_id == selfId2) = true
    · rw [if_pos h1] at hfp
      exact absurd hfp (by simp)
    · rw [if_neg h1] at hfp
      by_cases h2 : T2 < p.2.timestamp
      · rw [if_pos h2] at hfp
        exact ⟨p, hp, by simpa using h1, h2, (Option.some_inj.mp hfp).symm⟩
      · rw [if_neg h2] at hfp
        exact absurd hfp (by simp)

/-- Concrete message fixture for the C1 witness: checkpoint 5, messages
stamped 6 and 5 in the first thread and 4 in the second, all authored by
other users (the monitored account has id 99). -/
def threadsW : List IGThread :=
  [{ tid := "t1",
     messages := [{ user_id := 1, timestamp := 6, id := "m1", text := "hi", sender := "bob" },
       { user_id := 2, timestamp := 5, id := "m2", text := "old", sender := "carol" }] },
   { tid := "t2",
     messages := [{ user_id := 3, timestamp := 4, id := "m3", text := "older", sender := "dan" }] }]

/-- Witness for C1 at the concrete fixture. -/
theorem C1_message_novelty_witness :
    (∃ p ∈ examinedPairs threadsW, p.2.timestamp = 5 + 1 ∧
        checkMessages 99 5 threadsW = [msgEvent p.1 p.2]) ∧
    (∀ (selfId2 : Nat) (T2 : Int) (threads2 : List IGThread) (e : MessageEvent),
        e ∈ checkMessages selfId2 T2 threads2 →
        ∃ p ∈ examinedPairs threads2, p.2.user_id ≠ selfId2 ∧ T2 < p.2.timestamp ∧
          e = msgEvent p.1 p.2) :=
  C1_message_novelty 99 5 threadsW (by decide) (by decide)

end InstagramHub

